import Mathlib

/-!
Shallow embedding of `packages/database/src/api/Query.ts` from the
firebase-js-sdk repository: the `Query` builder surface (`orderByChild`,
`orderByKey`, `orderByPriority`, `orderByValue`, `startAt`, `startAfter`,
`endAt`, `endBefore`, `equalTo`, `limitToFirst`, `limitToLast`), together
with `isEqual`, `toString`, `queryIdentifier` and the cancel/context
argument disambiguation helper used by `on` and `once`.

JavaScript runtime values reaching these code paths are modelled by `JSVal`
(data and bound values) and `JSArg` (the third/fourth argument of `on` and
`once`).  JS numbers are modelled as rationals so that the source condition
`Math.floor(x) !== x` is expressible; non-finite doubles are outside the
model.  Methods that may `throw` are embedded in `Except String`.  A method
invoked on a receiver `q` is a function returning a pair
`(receiver after the call, result)`: the method bodies in the source never
assign a field of `this`, so the first component is `q` at every exit, and
the second component is the returned value or the thrown error.

`QueryParams` (core/view/QueryParams.ts), the path helpers
(core/util/Path.ts), `ObjectToUniqueKey` (core/util/util.ts) and
`isValidPriority` (core/util/validation.ts) are not among the sources at
hand; the definitions marked `Modelled from the spec:` stand in for them,
following the wording of the specification.
-/

namespace FirebaseDB

/-- JavaScript values that can appear as a query bound or data argument:
null, a boolean, a number (modelled as a rational), a string, or a plain
object (payload opaque; only its `typeof` matters to the embedded code). -/
inductive JSVal where
  | vnull
  | vbool (b : Bool)
  | vnum (r : ℚ)
  | vstr (s : String)
  | vobj
  deriving DecidableEq, Repr

/-- The JavaScript `typeof` operator restricted to `JSVal`; note that
`typeof null` is `"object"` in JavaScript. -/
def jsTypeof : JSVal → String
  | JSVal.vnull => "object"
  | JSVal.vbool _ => "boolean"
  | JSVal.vnum _ => "number"
  | JSVal.vstr _ => "string"
  | JSVal.vobj => "object"

/-- Modelled from the spec: the minimal-key sentinel `MIN_NAME` of
core/util/util.ts (the "minimum possible" name of section 4.2); it is not a
valid user key, so an explicitly supplied tie-break name never equals it. -/
def MIN_NAME : String := "[MIN_NAME]"

/-- Modelled from the spec: the maximal-key sentinel `MAX_NAME` of
core/util/util.ts (the "maximum possible" name of section 4.2). -/
def MAX_NAME : String := "[MAX_NAME]"

/-- Modelled from the spec: `isValidPriority` of core/util/validation.ts;
the spec (section 4.2) says a valid priority value is null, a number, or a
string. -/
def isValidPriority : JSVal → Bool
  | JSVal.vnull => true
  | JSVal.vnum _ => true
  | JSVal.vstr _ => true
  | _ => false

/-- Modelled from the spec (section 9): the closed tagged variant of index
orderings, one of key-order, priority-order, value-order, or
order-by-a-named-child-path. -/
inductive Index where
  | key
  | priority
  | value
  | pathIndex (segments : List String)
  deriving DecidableEq, Repr

/-- Modelled from the spec: the deterministic serialized name of an index,
as used inside the canonicalized parameter object (the priority index is
the default and is omitted there, so its name never appears). -/
def Index.str : Index → String
  | Index.key => ".key"
  | Index.priority => ".priority"
  | Index.value => ".value"
  | Index.pathIndex segs => String.intercalate "/" segs

/-- Which end of the ordered window a limit is anchored to (spec glossary:
first N vs. last N). -/
inductive Anchor where
  | first
  | last
  deriving DecidableEq, Repr

/-- Modelled from the spec (section 3): a start or end bound — a value, an
optional tie-break name, and whether the bound is exclusive (`startAfter` /
`endBefore`) rather than inclusive (`startAt` / `endAt`). -/
structure Bound where
  value : JSVal
  name : Option String
  exclusive : Bool
  deriving DecidableEq, Repr

/-- Modelled from the spec (section 3): a limit — a count plus an optional
anchor; `none` as anchor is an unanchored (raw) limit, which the builder
surface itself never produces but which the state space admits. -/
structure LimitSpec where
  count : ℚ
  anchor : Option Anchor
  deriving DecidableEq, Repr

/-- Modelled from the spec (section 3): immutable QueryParams — selected
index, optional start bound, optional end bound, optional limit. -/
structure QueryParams where
  index : Index
  startBound : Option Bound
  endBound : Option Bound
  limit : Option LimitSpec
  deriving DecidableEq, Repr

/-- Modelled from the spec: the parameters of the default query (no
ordering, range or limit); the default index is the priority index, which
is the one omitted from the canonicalized parameter object. -/
def defaultQueryParams : QueryParams :=
  QueryParams.mk Index.priority none none none

def QueryParams.hasStart (p : QueryParams) : Bool := p.startBound.isSome

def QueryParams.hasEnd (p : QueryParams) : Bool := p.endBound.isSome

def QueryParams.hasLimit (p : QueryParams) : Bool := p.limit.isSome

/-- Modelled from the spec: a limit is anchored when it was produced by
`limitToFirst` or `limitToLast` (spec section 4.3). -/
def QueryParams.hasAnchoredLimit (p : QueryParams) : Bool :=
  match p.limit with
  | some l => l.anchor.isSome
  | none => false

/-- Modelled from the spec: the tie-break name of the start bound, falling
back to the minimal-key sentinel when no name was supplied. -/
def QueryParams.getIndexStartName (p : QueryParams) : String :=
  match p.startBound with
  | some b => b.name.getD MIN_NAME
  | none => MIN_NAME

/-- Modelled from the spec: the tie-break name of the end bound, falling
back to the maximal-key sentinel when no name was supplied. -/
def QueryParams.getIndexEndName (p : QueryParams) : String :=
  match p.endBound with
  | some b => b.name.getD MAX_NAME
  | none => MAX_NAME

/-- The local `startNode` of `Query.validateQueryEndpoints_`: the start
bound value when a start bound is set, otherwise JS `null`. -/
def startNodeOf (p : QueryParams) : JSVal :=
  match p.startBound with
  | some b => b.value
  | none => JSVal.vnull

/-- The local `endNode` of `Query.validateQueryEndpoints_`: the end bound
value when an end bound is set, otherwise JS `null`. -/
def endNodeOf (p : QueryParams) : JSVal :=
  match p.endBound with
  | some b => b.value
  | none => JSVal.vnull

/-- Modelled from the spec: `queryParamsStartAt` of core/view/QueryParams.ts
— record an inclusive start bound with the given value and optional name
(any previously present start bound is overwritten; the builder method
itself rejects that case separately). -/
def queryParamsStartAt (p : QueryParams) (value : JSVal) (name : Option String) : QueryParams :=
  QueryParams.mk p.index (some (Bound.mk value name false)) p.endBound p.limit

/-- Modelled from the spec: `queryParamsStartAfter` — record an exclusive
start bound with the given value and optional name. -/
def queryParamsStartAfter (p : QueryParams) (value : JSVal) (name : Option String) : QueryParams :=
  QueryParams.mk p.index (some (Bound.mk value name true)) p.endBound p.limit

/-- Modelled from the spec: `queryParamsEndAt` — record an inclusive end
bound with the given value and optional name. -/
def queryParamsEndAt (p : QueryParams) (value : JSVal) (name : Option String) : QueryParams :=
  QueryParams.mk p.index p.startBound (some (Bound.mk value name false)) p.limit

/-- Modelled from the spec: `queryParamsEndBefore` — record an exclusive
end bound with the given value and optional name. -/
def queryParamsEndBefore (p : QueryParams) (value : JSVal) (name : Option String) : QueryParams :=
  QueryParams.mk p.index p.startBound (some (Bound.mk value name true)) p.limit

/-- Modelled from the spec: `queryParamsLimitToFirst` — record a limit of
the given count anchored to the first children of the window. -/
def queryParamsLimitToFirst (p : QueryParams) (n : ℚ) : QueryParams :=
  QueryParams.mk p.index p.startBound p.endBound (some (LimitSpec.mk n (some Anchor.first)))

/-- Modelled from the spec: `queryParamsLimitToLast` — record a limit of
the given count anchored to the last children of the window. -/
def queryParamsLimitToLast (p : QueryParams) (n : ℚ) : QueryParams :=
  QueryParams.mk p.index p.startBound p.endBound (some (LimitSpec.mk n (some Anchor.last)))

/-- Modelled from the spec: `queryParamsOrderBy` — select the given index. -/
def queryParamsOrderBy (p : QueryParams) (idx : Index) : QueryParams :=
  QueryParams.mk idx p.startBound p.endBound p.limit

/-- Deterministic rendering of a rational number; an integer renders as its
integer numeral, matching how an integral JS number prints. -/
def serializeRat (r : ℚ) : String :=
  if r.den = 1 then toString r.num else toString r.num ++ "/" ++ toString r.den

/-- Deterministic rendering of a `JSVal` inside the canonical parameter
object. -/
def serializeJSVal : JSVal → String
  | JSVal.vnull => "null"
  | JSVal.vbool true => "true"
  | JSVal.vbool false => "false"
  | JSVal.vnum r => serializeRat r
  | JSVal.vstr s => "\"" ++ s ++ "\""
  | JSVal.vobj => "[object]"

/-- Modelled from the spec (sections 4.3 and 6): the canonicalized mapping
object of a `QueryParams` — a parameter object holding the start bound
(value `sp`, name `sn`, exclusivity `sx`), the end bound (value `ep`, name
`en`, exclusivity `ex`), the limit (`l`) with its anchor (`vf`), and the
selected index (`i`); a component is present only when set, the default
priority index is omitted, and the default query yields the empty object. -/
def queryParamsGetQueryObject (p : QueryParams) : List (String × JSVal) :=
  (match p.startBound with
   | some b =>
       [("sp", b.value)] ++
       (match b.name with
        | some n => [("sn", JSVal.vstr n)]
        | none => []) ++
       (if b.exclusive then [("sx", JSVal.vbool true)] else [])
   | none => []) ++
  (match p.endBound with
   | some b =>
       [("ep", b.value)] ++
       (match b.name with
        | some n => [("en", JSVal.vstr n)]
        | none => []) ++
       (if b.exclusive then [("ex", JSVal.vbool true)] else [])
   | none => []) ++
  (match p.limit with
   | some l =>
       [("l", JSVal.vnum l.count)] ++
       (match l.anchor with
        | some Anchor.first => [("vf", JSVal.vstr "l")]
        | some Anchor.last => [("vf", JSVal.vstr "r")]
        | none => [])
   | none => []) ++
  (if p.index = Index.priority then [] else [("i", JSVal.vstr p.index.str)])

/-- Insert a key/value pair into a key-sorted association list, keeping the
keys sorted. -/
def insertByKey (kv : String × JSVal) : List (String × JSVal) → List (String × JSVal)
  | [] => [kv]
  | h :: t =>
      match compare kv.1 h.1 with
      | Ordering.lt => kv :: h :: t
      | _ => h :: insertByKey kv t

/-- Insertion sort of an association list by key. -/
def sortByKey : List (String × JSVal) → List (String × JSVal)
  | [] => []
  | h :: t => insertByKey h (sortByKey t)

/-- Modelled from the spec: `ObjectToUniqueKey` of core/util/util.ts — a
deterministic string for a mapping object, obtained by ordering the keys
deterministically and serializing; the empty object serializes to the
two-character string brace, close-brace. -/
def ObjectToUniqueKey (obj : List (String × JSVal)) : String :=
  "\x7b" ++
    String.intercalate ","
      ((sortByKey obj).map (fun kv => "\"" ++ kv.1 ++ "\":" ++ serializeJSVal kv.2)) ++
    "\x7d"

/-- Modelled from the spec: paths are sequences of segments
(core/util/Path.ts is not among the sources at hand). -/
def pathEquals (a b : List String) : Bool := a == b

/-- Split a character list at every slash. -/
def splitSlash : List Char → List (List Char)
  | [] => [[]]
  | c :: cs =>
      match splitSlash cs with
      | [] => [[c]]
      | h :: t => if c = '/' then [] :: h :: t else (c :: h) :: t

/-- Modelled from the spec: parsing a path string into its non-empty
slash-separated segments (`new Path(pathString)`). -/
def parsePath (s : String) : List String :=
  ((splitSlash s.data).map (fun cs => String.mk cs)).filter (fun piece => piece ≠ "")

/-- Modelled from the spec: `pathIsEmpty`. -/
def pathIsEmpty (p : List String) : Bool := p.isEmpty

/-- Modelled from the spec: `pathToUrlEncodedString` — the root path renders
as a single slash, otherwise each segment is preceded by a slash; the
percent-encoding of special characters is elided (segments are taken to be
URL-safe). -/
def pathToUrlEncodedString (p : List String) : String :=
  if p.isEmpty then "/" else String.join (p.map (fun piece => "/" ++ piece))

/-- Modelled from the spec: a repo (resolved remote endpoint handle); `rid`
stands for the object identity used by the reference comparison
`this.repo === other.repo`, and `url` is what `repo.toString()` returns. -/
structure Repo where
  rid : Nat
  url : String
  deriving DecidableEq, Repr

/-- Modelled from the spec: `repo.toString()` is the URL of the remote
endpoint. -/
def Repo.str (r : Repo) : String := r.url

/-- The database handle owned by a query; it carries the resolved repo. -/
structure Database where
  repo_ : Repo
  deriving DecidableEq, Repr

/-- The `Query` class of api/Query.ts: a database handle, a location path,
the query parameters, and whether an orderBy call has been made. -/
structure Query where
  database : Database
  path : List String
  queryParams_ : QueryParams
  orderByCalled_ : Bool
  deriving DecidableEq, Repr

/-- The `repo` field set by the `Query` constructor from
`database.repo_`. -/
def Query.repo (q : Query) : Repo := q.database.repo_

def tooManyArgsError : String :=
  "Query: When ordering by key, you may only pass one argument to startAt(), endAt(), or equalTo()."

def wrongArgTypeError : String :=
  "Query: When ordering by key, the argument passed to startAt(), startAfter(), endAt(), endBefore(), or equalTo() must be a string."

def priorityTypeError : String :=
  "Query: When ordering by priority, the first argument passed to startAt(), startAfter() endAt(), endBefore(), or equalTo() must be a valid priority value (null, a number, or a string)."

def objectArgError : String :=
  "Query: First argument passed to startAt(), startAfter(), endAt(), endBefore(), or equalTo() cannot be an object."

/-- `Query.validateQueryEndpoints_` (Query.ts lines 108-168): eager type
validation of the start/end bound values against the active index.  The
source performs the start-name check, then the start-type check, then the
end-name check, then the end-type check, throwing at the first failure;
the if-chain below reproduces that order. -/
def validateQueryEndpoints_ (params : QueryParams) : Except String Unit :=
  let startNode := startNodeOf params
  let endNode := endNodeOf params
  if params.index = Index.key then
    if params.hasStart = true ∧ params.getIndexStartName ≠ MIN_NAME then
      Except.error tooManyArgsError
    else if params.hasStart = true ∧ jsTypeof startNode ≠ "string" then
      Except.error wrongArgTypeError
    else if params.hasEnd = true ∧ params.getIndexEndName ≠ MAX_NAME then
      Except.error tooManyArgsError
    else if params.hasEnd = true ∧ jsTypeof endNode ≠ "string" then
      Except.error wrongArgTypeError
    else Except.ok ()
  else if params.index = Index.priority then
    if (startNode ≠ JSVal.vnull ∧ isValidPriority startNode = false) ∨
       (endNode ≠ JSVal.vnull ∧ isValidPriority endNode = false) then
      Except.error priorityTypeError
    else Except.ok ()
  else
    -- the source asserts here that the index is a PathIndex or VALUE_INDEX,
    -- which is exhaustively true of the remaining constructors
    if (startNode ≠ JSVal.vnull ∧ jsTypeof startNode = "object") ∨
       (endNode ≠ JSVal.vnull ∧ jsTypeof endNode = "object") then
      Except.error objectArgError
    else Except.ok ()

def limitCombinationError : String :=
  "Query: Cannot combine startAt(), startAfter(), endAt(), endBefore(), and limit(). Use limitToFirst() or limitToLast() instead."

/-- `Query.validateLimit_` (Query.ts lines 173-185): a start bound, an end
bound and a limit may be combined only when the limit is anchored. -/
def validateLimit_ (params : QueryParams) : Except String Unit :=
  if params.hasStart = true ∧ params.hasEnd = true ∧ params.hasLimit = true ∧
     params.hasAnchoredLimit = false then
    Except.error limitCombinationError
  else Except.ok ()

/-- `Query.validateNoPreviousOrderByCall_` (Query.ts lines 190-194). -/
def validateNoPreviousOrderByCall_ (q : Query) (fnName : String) : Except String Unit :=
  if q.orderByCalled_ = true then
    Except.error (fnName ++ ": You cannot combine multiple orderBy calls.")
  else Except.ok ()

/-- `Query.limitToFirst` (Query.ts lines 363-387).  The argument is checked
to be a number, integral and strictly positive, then the limit must not
already be set; `validateFirebaseDataArg` style argument-count checks are
guaranteed by the function arity here. -/
def Query.limitToFirst (q : Query) (limit : JSVal) : Query × Except String Query :=
  (q,
    match limit with
    | JSVal.vnum r =>
        if (Rat.floor r : ℚ) ≠ r ∨ r ≤ 0 then
          Except.error "Query.limitToFirst: First argument must be a positive integer."
        else if q.queryParams_.hasLimit then
          Except.error "Query.limitToFirst: Limit was already set (by another call to limit, limitToFirst, or limitToLast)."
        else
          Except.ok (Query.mk q.database q.path (queryParamsLimitToFirst q.queryParams_ r) q.orderByCalled_)
    | _ => Except.error "Query.limitToFirst: First argument must be a positive integer.")

/-- `Query.limitToLast` (Query.ts lines 392-416). -/
def Query.limitToLast (q : Query) (limit : JSVal) : Query × Except String Query :=
  (q,
    match limit with
    | JSVal.vnum r =>
        if (Rat.floor r : ℚ) ≠ r ∨ r ≤ 0 then
          Except.error "Query.limitToLast: First argument must be a positive integer."
        else if q.queryParams_.hasLimit then
          Except.error "Query.limitToLast: Limit was already set (by another call to limit, limitToFirst, or limitToLast)."
        else
          Except.ok (Query.mk q.database q.path (queryParamsLimitToLast q.queryParams_ r) q.orderByCalled_)
    | _ => Except.error "Query.limitToLast: First argument must be a positive integer.")

/-- `Query.orderByChild` (Query.ts lines 421-454).  `validatePathString`
validates the character set of the path string, which the model takes as
given for its string domain. -/
def Query.orderByChild (q : Query) (path : String) : Query × Except String Query :=
  (q,
    if path = "$key" then
      Except.error "Query.orderByChild: \"$key\" is invalid.  Use Query.orderByKey() instead."
    else if path = "$priority" then
      Except.error "Query.orderByChild: \"$priority\" is invalid.  Use Query.orderByPriority() instead."
    else if path = "$value" then
      Except.error "Query.orderByChild: \"$value\" is invalid.  Use Query.orderByValue() instead."
    else
      match validateNoPreviousOrderByCall_ q "Query.orderByChild" with
      | Except.error e => Except.error e
      | Except.ok _ =>
          let parsedPath := parsePath path
          if pathIsEmpty parsedPath then
            Except.error "Query.orderByChild: cannot pass in empty path.  Use Query.orderByValue() instead."
          else
            let index := Index.pathIndex parsedPath
            let newParams := queryParamsOrderBy q.queryParams_ index
            match validateQueryEndpoints_ newParams with
            | Except.error e => Except.error e
            | Except.ok _ => Except.ok (Query.mk q.database q.path newParams true))

/-- `Query.orderByKey` (Query.ts lines 459-470). -/
def Query.orderByKey (q : Query) : Query × Except String Query :=
  (q,
    match validateNoPreviousOrderByCall_ q "Query.orderByKey" with
    | Except.error e => Except.error e
    | Except.ok _ =>
        let newParams := queryParamsOrderBy q.queryParams_ Index.key
        match validateQueryEndpoints_ newParams with
        | Except.error e => Except.error e
        | Except.ok _ => Except.ok (Query.mk q.database q.path newParams true))

/-- `Query.orderByPriority` (Query.ts lines 475-486). -/
def Query.orderByPriority (q : Query) : Query × Except String Query :=
  (q,
    match validateNoPreviousOrderByCall_ q "Query.orderByPriority" with
    | Except.error e => Except.error e
    | Except.ok _ =>
        let newParams := queryParamsOrderBy q.queryParams_ Index.priority
        match validateQueryEndpoints_ newParams with
        | Except.error e => Except.error e
        | Except.ok _ => Except.ok (Query.mk q.database q.path newParams true))

/-- `Query.orderByValue` (Query.ts lines 491-502). -/
def Query.orderByValue (q : Query) : Query × Except String Query :=
  (q,
    match validateNoPreviousOrderByCall_ q "Query.orderByValue" with
    | Except.error e => Except.error e
    | Except.ok _ =>
        let newParams := queryParamsOrderBy q.queryParams_ Index.value
        match validateQueryEndpoints_ newParams with
        | Except.error e => Except.error e
        | Except.ok _ => Except.ok (Query.mk q.database q.path newParams true))

/-- `Query.startAt` (Query.ts lines 504-529).  `validateFirebaseDataArg`
and `validateKey` accept every value of the modelled domains (null, a
boolean, a finite number, a string and a plain object are all valid data;
names are taken from the valid-key string domain), so they do not appear
as failure branches.  Note the order: the limit and endpoint validations
run on the new parameters before the already-set check on the old ones. -/
def Query.startAt (q : Query) (value : JSVal) (name : Option String) : Query × Except String Query :=
  (q,
    let newParams := queryParamsStartAt q.queryParams_ value name
    match validateLimit_ newParams with
    | Except.error e => Except.error e
    | Except.ok _ =>
        match validateQueryEndpoints_ newParams with
        | Except.error e => Except.error e
        | Except.ok _ =>
            if q.queryParams_.hasStart then
              Except.error "Query.startAt: Starting point was already set (by another call to startAt or equalTo)."
            else
              Except.ok (Query.mk q.database q.path newParams q.orderByCalled_))

/-- `Query.startAfter` (Query.ts lines 531-550). -/
def Query.startAfter (q : Query) (value : JSVal) (name : Option String) : Query × Except String Query :=
  (q,
    let newParams := queryParamsStartAfter q.queryParams_ value name
    match validateLimit_ newParams with
    | Except.error e => Except.error e
    | Except.ok _ =>
        match validateQueryEndpoints_ newParams with
        | Except.error e => Except.error e
        | Except.ok _ =>
            if q.queryParams_.hasStart then
              Except.error "Query.startAfter: Starting point was already set (by another call to startAt, startAfter or equalTo)."
            else
              Except.ok (Query.mk q.database q.path newParams q.orderByCalled_))

/-- `Query.endAt` (Query.ts lines 552-571). -/
def Query.endAt (q : Query) (value : JSVal) (name : Option String) : Query × Except String Query :=
  (q,
    let newParams := queryParamsEndAt q.queryParams_ value name
    match validateLimit_ newParams with
    | Except.error e => Except.error e
    | Except.ok _ =>
        match validateQueryEndpoints_ newParams with
        | Except.error e => Except.error e
        | Except.ok _ =>
            if q.queryParams_.hasEnd then
              Except.error "Query.endAt: Ending point was already set (by another call to endAt, endBefore, or equalTo)."
            else
              Except.ok (Query.mk q.database q.path newParams q.orderByCalled_))

/-- `Query.endBefore` (Query.ts lines 573-592). -/
def Query.endBefore (q : Query) (value : JSVal) (name : Option String) : Query × Except String Query :=
  (q,
    let newParams := queryParamsEndBefore q.queryParams_ value name
    match validateLimit_ newParams with
    | Except.error e => Except.error e
    | Except.ok _ =>
        match validateQueryEndpoints_ newParams with
        | Except.error e => Except.error e
        | Except.ok _ =>
            if q.queryParams_.hasEnd then
              Except.error "Query.endBefore: Ending point was already set (by another call to endAt, endBefore, or equalTo)."
            else
              Except.ok (Query.mk q.database q.path newParams q.orderByCalled_))

/-- `Query.equalTo` (Query.ts lines 598-615): after rejecting an already
set start or end bound, it delegates to `startAt` followed by `endAt` on
the intermediate result. -/
def Query.equalTo (q : Query) (value : JSVal) (name : Option String) : Query × Except String Query :=
  (q,
    if q.queryParams_.hasStart then
      Except.error "Query.equalTo: Starting point was already set (by another call to startAt/startAfter or equalTo)."
    else if q.queryParams_.hasEnd then
      Except.error "Query.equalTo: Ending point was already set (by another call to endAt/endBefore or equalTo)."
    else
      match (q.startAt value name).2 with
      | Except.error e => Except.error e
      | Except.ok q1 => (q1.endAt value name).2)

/-- `Query.toString` (Query.ts lines 620-624): the repo URL followed by the
URL-encoded path. -/
def Query.toString (q : Query) : String :=
  q.repo.str ++ pathToUrlEncodedString q.path

/-- `Query.queryObject` (Query.ts lines 637-639). -/
def Query.queryObject (q : Query) : List (String × JSVal) :=
  queryParamsGetQueryObject q.queryParams_

/-- `Query.queryIdentifier` (Query.ts lines 641-645): the unique key of the
canonical parameter object, or the word default for the empty object. -/
def Query.queryIdentifier (q : Query) : String :=
  let obj := q.queryObject
  let id := ObjectToUniqueKey obj
  if id = "\x7b\x7d" then "default" else id

/-- `Query.isEqual` (Query.ts lines 650-664): same repo (reference
equality, modelled structurally), equal paths, and the same canonical query
identifier.  The instanceof guard of the source cannot fail here because
the argument type already guarantees a `Query`. -/
def Query.isEqual (q : Query) (other : Query) : Bool :=
  let sameRepo := q.repo == other.repo
  let samePath := pathEquals q.path other.path
  let sameQueryIdentifier := q.queryIdentifier == other.queryIdentifier
  sameRepo && samePath && sameQueryIdentifier

/-- JavaScript values that can be passed as the optional third or fourth
argument of `on` and `once`: absent (undefined), null, a boolean, a number,
a string, a function, or a non-null object (functions and objects carry an
identity). -/
inductive JSArg where
  | undef
  | jsnull
  | jsbool (b : Bool)
  | jsnum (r : ℚ)
  | jsstr (s : String)
  | jsfunc (id : Nat)
  | jsobj (id : Nat)
  deriving DecidableEq, Repr

/-- JavaScript truthiness restricted to `JSArg` (NaN, which is also falsy,
is outside the numeric model). -/
def truthy : JSArg → Bool
  | JSArg.undef => false
  | JSArg.jsnull => false
  | JSArg.jsbool b => b
  | JSArg.jsnum r => decide (r ≠ 0)
  | JSArg.jsstr s => decide (s ≠ "")
  | JSArg.jsfunc _ => true
  | JSArg.jsobj _ => true

/-- The cancel-callback / context pair extracted by
`Query.getCancelAndContextArgs_`. -/
structure CancelAndContext where
  cancel : Option Nat
  context : Option Nat
  deriving DecidableEq, Repr

/-- `Query.getCancelAndContextArgs_` (Query.ts lines 671-701): when both
optional arguments are truthy, the third is taken as the cancel callback
(validated as a function) and the fourth as the context (validated as an
object); when only the third is truthy it is a context if it is a non-null
object, a cancel callback if it is a function, and an error otherwise;
falsy arguments are treated as absent. -/
def getCancelAndContextArgs_ (fnName : String) (cancelOrContext : JSArg) (context : JSArg) :
    Except String CancelAndContext :=
  if truthy cancelOrContext = true ∧ truthy context = true then
    match cancelOrContext with
    | JSArg.jsfunc f =>
        match context with
        | JSArg.jsobj o => Except.ok (CancelAndContext.mk (some f) (some o))
        | _ => Except.error (fnName ++ ": fourth argument must be a valid context object.")
    | _ => Except.error (fnName ++ ": third argument must be a valid function.")
  else if truthy cancelOrContext = true then
    match cancelOrContext with
    | JSArg.jsobj o => Except.ok (CancelAndContext.mk none (some o))
    | JSArg.jsfunc f => Except.ok (CancelAndContext.mk (some f) none)
    | _ => Except.error (fnName ++ ": third argument must either be a cancel callback or a context object.")
  else
    Except.ok (CancelAndContext.mk none none)

/-- True exactly on the error constructor of `Except`. -/
def isErr {α : Type} : Except String α → Bool
  | Except.error _ => true
  | Except.ok _ => false

/-- Extract the query from a successful result, falling back to the given
default on an error. -/
def okD (d : Query) : Except String Query → Query
  | Except.ok q => q
  | Except.error _ => d

/-- A concrete repo used by concrete instances. -/
def testRepo : Repo := Repo.mk 0 "https://test.example.com"

/-- A concrete database handle. -/
def testDb : Database := Database.mk testRepo

/-- The default query at path `a`. -/
def q0 : Query := Query.mk testDb ["a"] defaultQueryParams false

/-- A query on which an orderBy call has already been made. -/
def qOrdered : Query := Query.mk testDb ["a"] (QueryParams.mk Index.value none none none) true

/-- Successful `startAt` yields exactly the receiver with the new inclusive
start bound recorded. -/
theorem startAt_ok_shape (q : Query) (v : JSVal) (n : Option String) (q' : Query)
    (h : (q.startAt v n).2 = Except.ok q') :
    q' = Query.mk q.database q.path (queryParamsStartAt q.queryParams_ v n) q.orderByCalled_ := by
  dsimp only [Query.startAt] at h
  repeat' split at h
  all_goals (cases h ; try rfl)

/-- Successful `startAfter` yields exactly the receiver with the new
exclusive start bound recorded. -/
theorem startAfter_ok_shape (q : Query) (v : JSVal) (n : Option String) (q' : Query)
    (h : (q.startAfter v n).2 = Except.ok q') :
    q' = Query.mk q.database q.path (queryParamsStartAfter q.queryParams_ v n) q.orderByCalled_ := by
  dsimp only [Query.startAfter] at h
  repeat' split at h
  all_goals (cases h ; try rfl)

/-- Successful `endAt` yields exactly the receiver with the new inclusive
end bound recorded. -/
theorem endAt_ok_shape (q : Query) (v : JSVal) (n : Option String) (q' : Query)
    (h : (q.endAt v n).2 = Except.ok q') :
    q' = Query.mk q.database q.path (queryParamsEndAt q.queryParams_ v n) q.orderByCalled_ := by
  dsimp only [Query.endAt] at h
  repeat' split at h
  all_goals (cases h ; try rfl)

/-- Successful `endBefore` yields exactly the receiver with the new
exclusive end bound recorded. -/
theorem endBefore_ok_shape (q : Query) (v : JSVal) (n : Option String) (q' : Query)
    (h : (q.endBefore v n).2 = Except.ok q') :
    q' = Query.mk q.database q.path (queryParamsEndBefore q.queryParams_ v n) q.orderByCalled_ := by
  dsimp only [Query.endBefore] at h
  repeat' split at h
  all_goals (cases h ; try rfl)

/-- Successful `limitToFirst` yields exactly the receiver with an anchored
limit of the numeric argument recorded. -/
theorem limitToFirst_ok_shape (q : Query) (l : JSVal) (q' : Query)
    (h : (q.limitToFirst l).2 = Except.ok q') :
    ∃ r : ℚ, l = JSVal.vnum r ∧
      q' = Query.mk q.database q.path (queryParamsLimitToFirst q.queryParams_ r) q.orderByCalled_ := by
  dsimp only [Query.limitToFirst] at h
  repeat' split at h
  all_goals (cases h ; try exact ⟨_, rfl, rfl⟩)

/-- Successful `limitToLast` yields exactly the receiver with an anchored
limit of the numeric argument recorded. -/
theorem limitToLast_ok_shape (q : Query) (l : JSVal) (q' : Query)
    (h : (q.limitToLast l).2 = Except.ok q') :
    ∃ r : ℚ, l = JSVal.vnum r ∧
      q' = Query.mk q.database q.path (queryParamsLimitToLast q.queryParams_ r) q.orderByCalled_ := by
  dsimp only [Query.limitToLast] at h
  repeat' split at h
  all_goals (cases h ; try exact ⟨_, rfl, rfl⟩)

/-- Successful `orderByChild` yields the receiver with the child-path index
selected and the orderBy flag set. -/
theorem orderByChild_ok_shape (q : Query) (p : String) (q' : Query)
    (h : (q.orderByChild p).2 = Except.ok q') :
    q' = Query.mk q.database q.path
      (queryParamsOrderBy q.queryParams_ (Index.pathIndex (parsePath p))) true := by
  dsimp only [Query.orderByChild] at h
  repeat' split at h
  all_goals (cases h ; try rfl)

/-- Successful `orderByKey` yields the receiver with the key index selected
and the orderBy flag set. -/
theorem orderByKey_ok_shape (q : Query) (q' : Query)
    (h : (q.orderByKey).2 = Except.ok q') :
    q' = Query.mk q.database q.path (queryParamsOrderBy q.queryParams_ Index.key) true := by
  dsimp only [Query.orderByKey] at h
  repeat' split at h
  all_goals (cases h ; try rfl)

/-- Successful `orderByPriority` yields the receiver with the priority
index selected and the orderBy flag set. -/
theorem orderByPriority_ok_shape (q : Query) (q' : Query)
    (h : (q.orderByPriority).2 = Except.ok q') :
    q' = Query.mk q.database q.path (queryParamsOrderBy q.queryParams_ Index.priority) true := by
  dsimp only [Query.orderByPriority] at h
  repeat' split at h
  all_goals (cases h ; try rfl)

/-- Successful `orderByValue` yields the receiver with the value index
selected and the orderBy flag set. -/
theorem orderByValue_ok_shape (q : Query) (q' : Query)
    (h : (q.orderByValue).2 = Except.ok q') :
    q' = Query.mk q.database q.path (queryParamsOrderBy q.queryParams_ Index.value) true := by
  dsimp only [Query.orderByValue] at h
  repeat' split at h
  all_goals (cases h ; try rfl)

/-- Successful `equalTo` yields the receiver with the inclusive start bound
and then the inclusive end bound recorded. -/
theorem equalTo_ok_shape (q : Query) (v : JSVal) (n : Option String) (q' : Query)
    (h : (q.equalTo v n).2 = Except.ok q') :
    q' = Query.mk q.database q.path
      (queryParamsEndAt (queryParamsStartAt q.queryParams_ v n) v n) q.orderByCalled_ := by
  dsimp only [Query.equalTo] at h
  repeat' split at h
  all_goals try (cases h)
  case _ q1 hq1 =>
    have h1 := startAt_ok_shape q v n q1 hq1
    subst h1
    have h2 := endAt_ok_shape _ v n q' h
    exact h2

/-- C1: `isEqual` returns true exactly when the two queries have the same
repo, equal paths and the same canonical query identifier; two
independently built queries whose parameter chains canonicalize to the same
parameter object (here `startAt` then `limitToFirst`, versus `limitToFirst`
then `startAt`) are equal, while `startAt` and `startAfter` on the same
value produce unequal queries. -/
theorem C1_isEqual_characterization :
    (∀ q1 q2 : Query, q1.isEqual q2 = true ↔
        (q1.repo = q2.repo ∧ pathEquals q1.path q2.path = true ∧
         q1.queryIdentifier = q2.queryIdentifier)) ∧
    (isErr ((okD q0 (q0.startAt (JSVal.vnum 5) none).2).limitToFirst (JSVal.vnum 3)).2 = false ∧
     isErr ((okD q0 (q0.limitToFirst (JSVal.vnum 3)).2).startAt (JSVal.vnum 5) none).2 = false ∧
     Query.isEqual
       (okD q0 ((okD q0 (q0.startAt (JSVal.vnum 5) none).2).limitToFirst (JSVal.vnum 3)).2)
       (okD q0 ((okD q0 (q0.limitToFirst (JSVal.vnum 3)).2).startAt (JSVal.vnum 5) none).2) = true) ∧
    (isErr (q0.startAt (JSVal.vnum 5) none).2 = false ∧
     isErr (q0.startAfter (JSVal.vnum 5) none).2 = false ∧
     Query.isEqual (okD q0 (q0.startAt (JSVal.vnum 5) none).2)
       (okD q0 (q0.startAfter (JSVal.vnum 5) none).2) = false) := by
  refine ⟨?_, by decide, by decide⟩
  intro q1 q2
  simp only [Query.isEqual, Bool.and_eq_true, beq_iff_eq]
  exact and_assoc

/-- C2: every transformation method leaves its receiver unchanged — the
first component of each embedded call, the receiver state at exit, is the
original query both on success and on a thrown validation error — and a
successful call returns a newly constructed Query at the same database and
path as the receiver. -/
theorem C2_methods_immutable :
    ∀ (q : Query) (p : String) (v : JSVal) (n : Option String) (l : JSVal),
    ((q.orderByChild p).1 = q ∧ (q.orderByKey).1 = q ∧ (q.orderByPriority).1 = q ∧
     (q.orderByValue).1 = q ∧ (q.startAt v n).1 = q ∧ (q.startAfter v n).1 = q ∧
     (q.endAt v n).1 = q ∧ (q.endBefore v n).1 = q ∧ (q.equalTo v n).1 = q ∧
     (q.limitToFirst l).1 = q ∧ (q.limitToLast l).1 = q) ∧
    ((okD q (q.orderByChild p).2).database = q.database ∧ (okD q (q.orderByChild p).2).path = q.path) ∧
    ((okD q (q.orderByKey).2).database = q.database ∧ (okD q (q.orderByKey).2).path = q.path) ∧
    ((okD q (q.orderByPriority).2).database = q.database ∧ (okD q (q.orderByPriority).2).path = q.path) ∧
    ((okD q (q.orderByValue).2).database = q.database ∧ (okD q (q.orderByValue).2).path = q.path) ∧
    ((okD q (q.startAt v n).2).database = q.database ∧ (okD q (q.startAt v n).2).path = q.path) ∧
    ((okD q (q.startAfter v n).2).database = q.database ∧ (okD q (q.startAfter v n).2).path = q.path) ∧
    ((okD q (q.endAt v n).2).database = q.database ∧ (okD q (q.endAt v n).2).path = q.path) ∧
    ((okD q (q.endBefore v n).2).database = q.database ∧ (okD q (q.endBefore v n).2).path = q.path) ∧
    ((okD q (q.equalTo v n).2).database = q.database ∧ (okD q (q.equalTo v n).2).path = q.path) ∧
    ((okD q (q.limitToFirst l).2).database = q.database ∧ (okD q (q.limitToFirst l).2).path = q.path) ∧
    ((okD q (q.limitToLast l).2).database = q.database ∧ (okD q (q.limitToLast l).2).path = q.path) := by
  intro q p v n l
  refine ⟨⟨rfl, rfl, rfl, rfl, rfl, rfl, rfl, rfl, rfl, rfl, rfl⟩, ?_, ?_, ?_, ?_, ?_, ?_, ?_, ?_, ?_, ?_, ?_⟩
  · rcases h : (q.orderByChild p).2 with er | q'
    · exact ⟨rfl, rfl⟩
    · rw [orderByChild_ok_shape q p q' h] ; exact ⟨rfl, rfl⟩
  · rcases h : (q.orderByKey).2 with er | q'
    · exact ⟨rfl, rfl⟩
    · rw [orderByKey_ok_shape q q' h] ; exact ⟨rfl, rfl⟩
  · rcases h : (q.orderByPriority).2 with er | q'
    · exact ⟨rfl, rfl⟩
    · rw [orderByPriority_ok_shape q q' h] ; exact ⟨rfl, rfl⟩
  · rcases h : (q.orderByValue).2 with er | q'
    · exact ⟨rfl, rfl⟩
    · rw [orderByValue_ok_shape q q' h] ; exact ⟨rfl, rfl⟩
  · rcases h : (q.startAt v n).2 with er | q'
    · exact ⟨rfl, rfl⟩
    · rw [startAt_ok_shape q v n q' h] ; exact ⟨rfl, rfl⟩
  · rcases h : (q.startAfter v n).2 with er | q'
    · exact ⟨rfl, rfl⟩
    · rw [startAfter_ok_shape q v n q' h] ; exact ⟨rfl, rfl⟩
  · rcases h : (q.endAt v n).2 with er | q'
    · exact ⟨rfl, rfl⟩
    · rw [endAt_ok_shape q v n q' h] ; exact ⟨rfl, rfl⟩
  · rcases h : (q.endBefore v n).2 with er | q'
    · exact ⟨rfl, rfl⟩
    · rw [endBefore_ok_shape q v n q' h] ; exact ⟨rfl, rfl⟩
  · rcases h : (q.equalTo v n).2 with er | q'
    · exact ⟨rfl, rfl⟩
    · rw [equalTo_ok_shape q v n q' h] ; exact ⟨rfl, rfl⟩
  · rcases h : (q.limitToFirst l).2 with er | q'
    · exact ⟨rfl, rfl⟩
    · obtain ⟨r, _, hq⟩ := limitToFirst_ok_shape q l q' h
      rw [hq] ; exact ⟨rfl, rfl⟩
  · rcases h : (q.limitToLast l).2 with er | q'
    · exact ⟨rfl, rfl⟩
    · obtain ⟨r, _, hq⟩ := limitToLast_ok_shape q l q' h
      rw [hq] ; exact ⟨rfl, rfl⟩

/-- `validateLimit_` fails on any parameters combining a start bound, an
end bound and an unanchored limit. -/
theorem validateLimit_err (p : QueryParams) (a : p.hasStart = true) (b : p.hasEnd = true)
    (c : p.hasLimit = true) (d : p.hasAnchoredLimit = false) :
    validateLimit_ p = Except.error limitCombinationError := by
  unfold validateLimit_
  rw [if_pos ⟨a, b, c, d⟩]

/-- C3: once an orderBy call has been made, every further orderBy call
throws; on a query with no prior orderBy call, each orderBy method succeeds
given otherwise valid arguments (the endpoint validation on the new
parameters passes, and for `orderByChild` the path is not a reserved name
and not empty) and marks the resulting query as ordered. -/
theorem C3_single_orderBy_call : ∀ q : Query,
    (q.orderByCalled_ = true →
       (∀ p, isErr (q.orderByChild p).2 = true) ∧ isErr (q.orderByKey).2 = true ∧
       isErr (q.orderByPriority).2 = true ∧ isErr (q.orderByValue).2 = true) ∧
    (q.orderByCalled_ = false →
       (∀ p, p ≠ "$key" → p ≠ "$priority" → p ≠ "$value" →
          pathIsEmpty (parsePath p) = false →
          validateQueryEndpoints_ (queryParamsOrderBy q.queryParams_ (Index.pathIndex (parsePath p))) = Except.ok () →
          (q.orderByChild p).2 = Except.ok (Query.mk q.database q.path
            (queryParamsOrderBy q.queryParams_ (Index.pathIndex (parsePath p))) true)) ∧
       (validateQueryEndpoints_ (queryParamsOrderBy q.queryParams_ Index.key) = Except.ok () →
          (q.orderByKey).2 = Except.ok (Query.mk q.database q.path
            (queryParamsOrderBy q.queryParams_ Index.key) true)) ∧
       (validateQueryEndpoints_ (queryParamsOrderBy q.queryParams_ Index.priority) = Except.ok () →
          (q.orderByPriority).2 = Except.ok (Query.mk q.database q.path
            (queryParamsOrderBy q.queryParams_ Index.priority) true)) ∧
       (validateQueryEndpoints_ (queryParamsOrderBy q.queryParams_ Index.value) = Except.ok () →
          (q.orderByValue).2 = Except.ok (Query.mk q.database q.path
            (queryParamsOrderBy q.queryParams_ Index.value) true))) := by
  intro q
  constructor
  · intro hob
    refine ⟨?_, ?_, ?_, ?_⟩
    · intro p
      dsimp only [Query.orderByChild]
      split_ifs <;> simp [validateNoPreviousOrderByCall_, hob, isErr]
    · simp [Query.orderByKey, validateNoPreviousOrderByCall_, hob, isErr]
    · simp [Query.orderByPriority, validateNoPreviousOrderByCall_, hob, isErr]
    · simp [Query.orderByValue, validateNoPreviousOrderByCall_, hob, isErr]
  · intro hob
    refine ⟨?_, ?_, ?_, ?_⟩
    · intro p hp1 hp2 hp3 hpe hval
      simp [Query.orderByChild, validateNoPreviousOrderByCall_, hob, hp1, hp2, hp3, hpe, hval]
    · intro hval
      simp [Query.orderByKey, validateNoPreviousOrderByCall_, hob, hval]
    · intro hval
      simp [Query.orderByPriority, validateNoPreviousOrderByCall_, hob, hval]
    · intro hval
      simp [Query.orderByValue, validateNoPreviousOrderByCall_, hob, hval]

/-- C4: a range call on a query whose parameters already carry the
respective bound throws; without that bound, and with the limit and
endpoint validations passing on the new parameters (the arguments being
valid for the active index), the call succeeds. -/
theorem C4_range_already_set : ∀ (q : Query) (v : JSVal) (n : Option String),
    (q.queryParams_.hasStart = true →
       isErr (q.startAt v n).2 = true ∧ isErr (q.startAfter v n).2 = true) ∧
    (q.queryParams_.hasEnd = true →
       isErr (q.endAt v n).2 = true ∧ isErr (q.endBefore v n).2 = true) ∧
    (q.queryParams_.hasStart = false →
       (validateLimit_ (queryParamsStartAt q.queryParams_ v n) = Except.ok () →
        validateQueryEndpoints_ (queryParamsStartAt q.queryParams_ v n) = Except.ok () →
        (q.startAt v n).2 = Except.ok (Query.mk q.database q.path
          (queryParamsStartAt q.queryParams_ v n) q.orderByCalled_)) ∧
       (validateLimit_ (queryParamsStartAfter q.queryParams_ v n) = Except.ok () →
        validateQueryEndpoints_ (queryParamsStartAfter q.queryParams_ v n) = Except.ok () →
        (q.startAfter v n).2 = Except.ok (Query.mk q.database q.path
          (queryParamsStartAfter q.queryParams_ v n) q.orderByCalled_))) ∧
    (q.queryParams_.hasEnd = false →
       (validateLimit_ (queryParamsEndAt q.queryParams_ v n) = Except.ok () →
        validateQueryEndpoints_ (queryParamsEndAt q.queryParams_ v n) = Except.ok () →
        (q.endAt v n).2 = Except.ok (Query.mk q.database q.path
          (queryParamsEndAt q.queryParams_ v n) q.orderByCalled_)) ∧
       (validateLimit_ (queryParamsEndBefore q.queryParams_ v n) = Except.ok () →
        validateQueryEndpoints_ (queryParamsEndBefore q.queryParams_ v n) = Except.ok () →
        (q.endBefore v n).2 = Except.ok (Query.mk q.database q.path
          (queryParamsEndBefore q.queryParams_ v n) q.orderByCalled_))) := by
  intro q v n
  refine ⟨?_, ?_, ?_, ?_⟩
  · intro hs
    constructor
    · dsimp only [Query.startAt]
      repeat' split
      all_goals simp_all [isErr]
    · dsimp only [Query.startAfter]
      repeat' split
      all_goals simp_all [isErr]
  · intro hs
    constructor
    · dsimp only [Query.endAt]
      repeat' split
      all_goals simp_all [isErr]
    · dsimp only [Query.endBefore]
      repeat' split
      all_goals simp_all [isErr]
  · intro hs
    constructor
    · intro hL hE
      simp [Query.startAt, hL, hE, hs]
    · intro hL hE
      simp [Query.startAfter, hL, hE, hs]
  · intro hs
    constructor
    · intro hL hE
      simp [Query.endAt, hL, hE, hs]
    · intro hL hE
      simp [Query.endBefore, hL, hE, hs]

/-- C5: `limitToFirst` and `limitToLast` throw when the argument is not a
number, not integral or not strictly positive, and when a limit is already
set; otherwise they succeed and record the limit anchored to the first,
respectively last, children. -/
theorem C5_limit_arguments : ∀ (q : Query) (l : JSVal),
    ((∀ r : ℚ, l = JSVal.vnum r → (Rat.floor r : ℚ) ≠ r ∨ r ≤ 0) →
       isErr (q.limitToFirst l).2 = true ∧ isErr (q.limitToLast l).2 = true) ∧
    (q.queryParams_.hasLimit = true →
       isErr (q.limitToFirst l).2 = true ∧ isErr (q.limitToLast l).2 = true) ∧
    (∀ r : ℚ, l = JSVal.vnum r → (Rat.floor r : ℚ) = r → 0 < r →
       q.queryParams_.hasLimit = false →
       (q.limitToFirst l).2 = Except.ok (Query.mk q.database q.path
         (queryParamsLimitToFirst q.queryParams_ r) q.orderByCalled_) ∧
       (q.limitToLast l).2 = Except.ok (Query.mk q.database q.path
         (queryParamsLimitToLast q.queryParams_ r) q.orderByCalled_)) := by
  intro q l
  refine ⟨?_, ?_, ?_⟩
  · intro hbad
    constructor
    · dsimp only [Query.limitToFirst]
      cases l with
      | vnum r => dsimp only ; rw [if_pos (hbad r rfl)] ; simp [isErr]
      | vnull => simp [isErr]
      | vbool b => simp [isErr]
      | vstr s => simp [isErr]
      | vobj => simp [isErr]
    · dsimp only [Query.limitToLast]
      cases l with
      | vnum r => dsimp only ; rw [if_pos (hbad r rfl)] ; simp [isErr]
      | vnull => simp [isErr]
      | vbool b => simp [isErr]
      | vstr s => simp [isErr]
      | vobj => simp [isErr]
  · intro hl
    constructor
    · dsimp only [Query.limitToFirst]
      cases l with
      | vnum r =>
        dsimp only
        split <;> simp [hl, isErr]
      | vnull => simp [isErr]
      | vbool b => simp [isErr]
      | vstr s => simp [isErr]
      | vobj => simp [isErr]
    · dsimp only [Query.limitToLast]
      cases l with
      | vnum r =>
        dsimp only
        split <;> simp [hl, isErr]
      | vnull => simp [isErr]
      | vbool b => simp [isErr]
      | vstr s => simp [isErr]
      | vobj => simp [isErr]
  · intro r hlr hfloor hpos hnl
    subst hlr
    have hcond : ¬((Rat.floor r : ℚ) ≠ r ∨ r ≤ 0) := by
      push_neg
      exact ⟨hfloor, hpos⟩
    constructor
    · dsimp only [Query.limitToFirst]
      rw [if_neg hcond]
      simp [hnl]
    · dsimp only [Query.limitToLast]
      rw [if_neg hcond]
      simp [hnl]

/-- C6: on parameters carrying a start bound, an end bound and an
unanchored limit, every builder call reaching the limit validation throws
(and `validateLimit_` itself fails on any such parameters), while an
anchored limit passes the limit validation even with both bounds present,
and `limitToFirst` / `limitToLast` succeed on a query that already has both
bounds and no limit. -/
theorem C6_unanchored_limit_combination : ∀ (q : Query) (v : JSVal) (n : Option String),
    (q.queryParams_.hasStart = true → q.queryParams_.hasEnd = true →
     q.queryParams_.hasLimit = true → q.queryParams_.hasAnchoredLimit = false →
       isErr (q.startAt v n).2 = true ∧ isErr (q.startAfter v n).2 = true ∧
       isErr (q.endAt v n).2 = true ∧ isErr (q.endBefore v n).2 = true) ∧
    (∀ p : QueryParams, p.hasStart = true → p.hasEnd = true → p.hasLimit = true →
       p.hasAnchoredLimit = false → isErr (validateLimit_ p) = true) ∧
    (∀ p : QueryParams, p.hasAnchoredLimit = true → validateLimit_ p = Except.ok ()) ∧
    (∀ r : ℚ, (Rat.floor r : ℚ) = r → 0 < r →
       q.queryParams_.hasStart = true → q.queryParams_.hasEnd = true →
       q.queryParams_.hasLimit = false →
       isErr (q.limitToFirst (JSVal.vnum r)).2 = false ∧
       isErr (q.limitToLast (JSVal.vnum r)).2 = false) := by
  intro q v n
  refine ⟨?_, ?_, ?_, ?_⟩
  · intro h1 h2 h3 h4
    refine ⟨?_, ?_, ?_, ?_⟩
    · have hL := validateLimit_err (queryParamsStartAt q.queryParams_ v n) rfl h2 h3 h4
      dsimp only [Query.startAt]
      rw [hL]
      simp [isErr]
    · have hL := validateLimit_err (queryParamsStartAfter q.queryParams_ v n) rfl h2 h3 h4
      dsimp only [Query.startAfter]
      rw [hL]
      simp [isErr]
    · have hL := validateLimit_err (queryParamsEndAt q.queryParams_ v n) h1 rfl h3 h4
      dsimp only [Query.endAt]
      rw [hL]
      simp [isErr]
    · have hL := validateLimit_err (queryParamsEndBefore q.queryParams_ v n) h1 rfl h3 h4
      dsimp only [Query.endBefore]
      rw [hL]
      simp [isErr]
  · intro p a b c d
    simp [validateLimit_err p a b c d, isErr]
  · intro p hanch
    unfold validateLimit_
    rw [if_neg]
    intro hcontra
    rw [hcontra.2.2.2] at hanch
    exact Bool.false_ne_true hanch
  · intro r hfloor hpos h1 h2 hnl
    have hcond : ¬((Rat.floor r : ℚ) ≠ r ∨ r ≤ 0) := by
      push_neg
      exact ⟨hfloor, hpos⟩
    constructor
    · dsimp only [Query.limitToFirst]
      rw [if_neg hcond]
      simp [hnl, isErr]
    · dsimp only [Query.limitToLast]
      rw [if_neg hcond]
      simp [hnl, isErr]

/-- On the key index, a start bound with an explicit tie-break name or with
a non-string value fails the endpoint validation. -/
theorem validateQueryEndpoints_key_start_err (p : QueryParams) (hidx : p.index = Index.key)
    (hs : p.hasStart = true)
    (hbad : p.getIndexStartName ≠ MIN_NAME ∨ jsTypeof (startNodeOf p) ≠ "string") :
    isErr (validateQueryEndpoints_ p) = true := by
  unfold validateQueryEndpoints_
  rw [if_pos hidx]
  split_ifs with h1 h2 h3 h4 <;> simp_all [isErr]

/-- On the key index, an end bound with an explicit tie-break name or with
a non-string value fails the endpoint validation. -/
theorem validateQueryEndpoints_key_end_err (p : QueryParams) (hidx : p.index = Index.key)
    (he : p.hasEnd = true)
    (hbad : p.getIndexEndName ≠ MAX_NAME ∨ jsTypeof (endNodeOf p) ≠ "string") :
    isErr (validateQueryEndpoints_ p) = true := by
  unfold validateQueryEndpoints_
  rw [if_pos hidx]
  split_ifs with h1 h2 h3 h4 <;> simp_all [isErr]

/-- On the priority index, a non-null start or end value that is not a
valid priority fails the endpoint validation. -/
theorem validateQueryEndpoints_priority_err (p : QueryParams) (hidx : p.index = Index.priority)
    (hbad : (startNodeOf p ≠ JSVal.vnull ∧ isValidPriority (startNodeOf p) = false) ∨
            (endNodeOf p ≠ JSVal.vnull ∧ isValidPriority (endNodeOf p) = false)) :
    isErr (validateQueryEndpoints_ p) = true := by
  unfold validateQueryEndpoints_
  rw [hidx]
  rw [if_neg (fun hh => Index.noConfusion hh), if_pos rfl, if_pos hbad]
  simp [isErr]

/-- On the value index or a child-path index, a non-null object-typed start
or end value fails the endpoint validation. -/
theorem validateQueryEndpoints_object_err (p : QueryParams)
    (hidx : p.index = Index.value ∨ ∃ segs, p.index = Index.pathIndex segs)
    (hbad : (startNodeOf p ≠ JSVal.vnull ∧ jsTypeof (startNodeOf p) = "object") ∨
            (endNodeOf p ≠ JSVal.vnull ∧ jsTypeof (endNodeOf p) = "object")) :
    isErr (validateQueryEndpoints_ p) = true := by
  unfold validateQueryEndpoints_
  rcases hidx with h | ⟨segs, h⟩ <;> rw [h] <;>
    rw [if_neg (fun hh => Index.noConfusion hh), if_neg (fun hh => Index.noConfusion hh),
      if_pos hbad] <;>
    simp [isErr]

/-- If the endpoint validation fails on the new parameters, `startAt`
throws. -/
theorem startAt_isErr_of_endpoints (q : Query) (v : JSVal) (n : Option String)
    (h : isErr (validateQueryEndpoints_ (queryParamsStartAt q.queryParams_ v n)) = true) :
    isErr (q.startAt v n).2 = true := by
  dsimp only [Query.startAt]
  rcases hL : validateLimit_ (queryParamsStartAt q.queryParams_ v n) with e | u
  · simp [isErr]
  · rcases hE : validateQueryEndpoints_ (queryParamsStartAt q.queryParams_ v n) with e | u2
    · simp [isErr]
    · rw [hE] at h ; simp [isErr] at h

/-- If the endpoint validation fails on the new parameters, `startAfter`
throws. -/
theorem startAfter_isErr_of_endpoints (q : Query) (v : JSVal) (n : Option String)
    (h : isErr (validateQueryEndpoints_ (queryParamsStartAfter q.queryParams_ v n)) = true) :
    isErr (q.startAfter v n).2 = true := by
  dsimp only [Query.startAfter]
  rcases hL : validateLimit_ (queryParamsStartAfter q.queryParams_ v n) with e | u
  · simp [isErr]
  · rcases hE : validateQueryEndpoints_ (queryParamsStartAfter q.queryParams_ v n) with e | u2
    · simp [isErr]
    · rw [hE] at h ; simp [isErr] at h

/-- If the endpoint validation fails on the new parameters, `endAt`
throws. -/
theorem endAt_isErr_of_endpoints (q : Query) (v : JSVal) (n : Option String)
    (h : isErr (validateQueryEndpoints_ (queryParamsEndAt q.queryParams_ v n)) = true) :
    isErr (q.endAt v n).2 = true := by
  dsimp only [Query.endAt]
  rcases hL : validateLimit_ (queryParamsEndAt q.queryParams_ v n) with e | u
  · simp [isErr]
  · rcases hE : validateQueryEndpoints_ (queryParamsEndAt q.queryParams_ v n) with e | u2
    · simp [isErr]
    · rw [hE] at h ; simp [isErr] at h

/-- If the endpoint validation fails on the new parameters, `endBefore`
throws. -/
theorem endBefore_isErr_of_endpoints (q : Query) (v : JSVal) (n : Option String)
    (h : isErr (validateQueryEndpoints_ (queryParamsEndBefore q.queryParams_ v n)) = true) :
    isErr (q.endBefore v n).2 = true := by
  dsimp only [Query.endBefore]
  rcases hL : validateLimit_ (queryParamsEndBefore q.queryParams_ v n) with e | u
  · simp [isErr]
  · rcases hE : validateQueryEndpoints_ (queryParamsEndBefore q.queryParams_ v n) with e | u2
    · simp [isErr]
    · rw [hE] at h ; simp [isErr] at h

/-- If the endpoint validation fails on the key-indexed parameters,
`orderByKey` throws. -/
theorem orderByKey_isErr_of_endpoints (q : Query)
    (h : isErr (validateQueryEndpoints_ (queryParamsOrderBy q.queryParams_ Index.key)) = true) :
    isErr (q.orderByKey).2 = true := by
  dsimp only [Query.orderByKey]
  rcases hO : validateNoPreviousOrderByCall_ q "Query.orderByKey" with e | u
  · simp [isErr]
  · rcases hE : validateQueryEndpoints_ (queryParamsOrderBy q.queryParams_ Index.key) with e | u2
    · simp [isErr]
    · rw [hE] at h ; simp [isErr] at h

/-- C7: the endpoint type validation rejects, on the key index, any start
or end bound with an explicit tie-break name or a non-string value; on the
priority index, any non-null bound value that is not a valid priority; and
on the value index or a child-path index, any non-null object-typed bound
value.  It runs eagerly: a range call with a key-incompatible value throws
at once, and `orderByKey` on parameters whose existing start value is not a
string throws at once. -/
theorem C7_eager_endpoint_validation :
    (∀ p : QueryParams,
      (p.index = Index.key → p.hasStart = true →
         (p.getIndexStartName ≠ MIN_NAME ∨ jsTypeof (startNodeOf p) ≠ "string") →
         isErr (validateQueryEndpoints_ p) = true) ∧
      (p.index = Index.key → p.hasEnd = true →
         (p.getIndexEndName ≠ MAX_NAME ∨ jsTypeof (endNodeOf p) ≠ "string") →
         isErr (validateQueryEndpoints_ p) = true) ∧
      (p.index = Index.priority →
         ((startNodeOf p ≠ JSVal.vnull ∧ isValidPriority (startNodeOf p) = false) ∨
          (endNodeOf p ≠ JSVal.vnull ∧ isValidPriority (endNodeOf p) = false)) →
         isErr (validateQueryEndpoints_ p) = true) ∧
      ((p.index = Index.value ∨ (∃ segs, p.index = Index.pathIndex segs)) →
         ((startNodeOf p ≠ JSVal.vnull ∧ jsTypeof (startNodeOf p) = "object") ∨
          (endNodeOf p ≠ JSVal.vnull ∧ jsTypeof (endNodeOf p) = "object")) →
         isErr (validateQueryEndpoints_ p) = true)) ∧
    (∀ (q : Query) (v : JSVal) (n : Option String),
      (q.queryParams_.index = Index.key → jsTypeof v ≠ "string" →
         isErr (q.startAt v n).2 = true ∧ isErr (q.startAfter v n).2 = true ∧
         isErr (q.endAt v n).2 = true ∧ isErr (q.endBefore v n).2 = true) ∧
      (q.queryParams_.hasStart = true → jsTypeof (startNodeOf q.queryParams_) ≠ "string" →
         isErr (q.orderByKey).2 = true)) := by
  constructor
  · intro p
    exact ⟨validateQueryEndpoints_key_start_err p, validateQueryEndpoints_key_end_err p,
      validateQueryEndpoints_priority_err p, validateQueryEndpoints_object_err p⟩
  · intro q v n
    constructor
    · intro hidx hv
      refine ⟨?_, ?_, ?_, ?_⟩
      · exact startAt_isErr_of_endpoints q v n
          (validateQueryEndpoints_key_start_err _ hidx rfl (Or.inr hv))
      · exact startAfter_isErr_of_endpoints q v n
          (validateQueryEndpoints_key_start_err _ hidx rfl (Or.inr hv))
      · exact endAt_isErr_of_endpoints q v n
          (validateQueryEndpoints_key_end_err _ hidx rfl (Or.inr hv))
      · exact endBefore_isErr_of_endpoints q v n
          (validateQueryEndpoints_key_end_err _ hidx rfl (Or.inr hv))
    · intro hs hv
      exact orderByKey_isErr_of_endpoints q
        (validateQueryEndpoints_key_start_err _ rfl hs (Or.inr hv))

/-- C8: with no start and no end bound set, `equalTo` computes exactly the
composition of `startAt` followed by `endAt` on the same value and name;
with either bound already set it throws. -/
theorem C8_equalTo_is_startAt_endAt : ∀ (q : Query) (v : JSVal) (n : Option String),
    (q.queryParams_.hasStart = false → q.queryParams_.hasEnd = false →
       (q.equalTo v n).2 =
         Except.bind (q.startAt v n).2 (fun q1 => (q1.endAt v n).2)) ∧
    (q.queryParams_.hasStart = true ∨ q.queryParams_.hasEnd = true →
       isErr (q.equalTo v n).2 = true) := by
  intro q v n
  constructor
  · intro hs he
    dsimp only [Query.equalTo]
    simp only [hs, he]
    rcases hSA : (q.startAt v n).2 with e | q1 <;> simp [Except.bind]
  · intro hor
    rcases hor with hs | he
    · dsimp only [Query.equalTo]
      simp [hs, isErr]
    · dsimp only [Query.equalTo]
      split <;> simp_all [isErr]

/-- A query whose parameters already carry a start bound. -/
def qStarted : Query :=
  Query.mk testDb ["a"]
    (QueryParams.mk Index.priority (some (Bound.mk (JSVal.vnum 1) none false)) none none) false

/-- A query whose parameters already carry an anchored limit. -/
def qLimited : Query :=
  Query.mk testDb ["a"]
    (QueryParams.mk Index.priority none none (some (LimitSpec.mk 3 (some Anchor.first)))) false

/-- A query whose parameters carry a start bound, an end bound and an
unanchored limit. -/
def qUnanchored : Query :=
  Query.mk testDb ["a"]
    (QueryParams.mk Index.priority (some (Bound.mk (JSVal.vnum 1) none false))
      (some (Bound.mk (JSVal.vnum 9) none false)) (some (LimitSpec.mk 3 none))) false

/-- A query whose parameters carry both bounds and no limit. -/
def qBothBounds : Query :=
  Query.mk testDb ["a"]
    (QueryParams.mk Index.priority (some (Bound.mk (JSVal.vnum 1) none false))
      (some (Bound.mk (JSVal.vnum 9) none false)) none) false

/-- Parameters carrying both bounds and an anchored limit. -/
def paramsAnchoredBoth : QueryParams :=
  QueryParams.mk Index.priority (some (Bound.mk (JSVal.vnum 1) none false))
    (some (Bound.mk (JSVal.vnum 9) none false)) (some (LimitSpec.mk 3 (some Anchor.first)))

/-- Key-indexed parameters whose start bound value is a number. -/
def paramsKeyBadStart : QueryParams :=
  QueryParams.mk Index.key (some (Bound.mk (JSVal.vnum 5) none false)) none none

/-- A key-ordered query (as produced by `orderByKey`). -/
def qKeyIdx : Query :=
  Query.mk testDb ["a"] (QueryParams.mk Index.key none none none) true

/-- C9 counterexample: a query with a limit set has a canonical identifier
different from the default query at the same location, yet `toString`
yields the very same string for both; so `toString` is merely the repo URL
plus the URL-encoded path and does not include the encoded QueryParams. -/
theorem C9_counterexample_toString_omits_params :
    qLimited.queryParams_.hasLimit = true ∧
    Query.toString qLimited = Query.toString q0 ∧
    qLimited.queryIdentifier ≠ q0.queryIdentifier := by
  refine ⟨rfl, rfl, ?_⟩
  decide

/-- C9 amended: `toString` returns the repo URL followed by the URL-encoded
path only, independently of the QueryParams; the encoded parameters are
exposed by `queryIdentifier` instead. -/
theorem C9_amended_toString_is_repo_and_path :
    ∀ q : Query,
      Query.toString q = q.repo.str ++ pathToUrlEncodedString q.path ∧
      (∀ p' : QueryParams,
        Query.toString (Query.mk q.database q.path p' q.orderByCalled_) = Query.toString q) :=
  fun _ => ⟨rfl, fun _ => rfl⟩

/-- C10 counterexample: the boolean false is a non-null third argument that
is neither an object nor a function, yet the helper accepts it and treats
it as absent instead of raising a validation error, because the dispatch
tests JavaScript truthiness, not nullness. -/
theorem C10_counterexample_falsy_third :
    getCancelAndContextArgs_ "Query.on" (JSArg.jsbool false) JSArg.undef =
      Except.ok (CancelAndContext.mk none none) ∧
    isErr (getCancelAndContextArgs_ "Query.on" (JSArg.jsbool false) JSArg.undef) = false := by
  exact ⟨rfl, rfl⟩

/-- C10 amended: the third/fourth argument dispatch of `on` and `once` is
by truthiness — with both arguments truthy the third must be a function
(the cancel callback) and the fourth an object (the context); with only the
third truthy, an object is taken as context, a function as cancel callback,
and any other truthy value raises a validation error; falsy arguments
(undefined, null, false, 0, the empty string) are treated as absent. -/
theorem C10_amended_cancel_context : ∀ (fn : String) (c k : JSArg),
    (∀ f o, getCancelAndContextArgs_ fn (JSArg.jsfunc f) (JSArg.jsobj o) =
       Except.ok (CancelAndContext.mk (some f) (some o))) ∧
    (truthy c = false →
       getCancelAndContextArgs_ fn c k = Except.ok (CancelAndContext.mk none none)) ∧
    (truthy k = false → ∀ f,
       getCancelAndContextArgs_ fn (JSArg.jsfunc f) k = Except.ok (CancelAndContext.mk (some f) none)) ∧
    (truthy k = false → ∀ o,
       getCancelAndContextArgs_ fn (JSArg.jsobj o) k = Except.ok (CancelAndContext.mk none (some o))) ∧
    (truthy c = true → truthy k = false → (∀ f, c ≠ JSArg.jsfunc f) → (∀ o, c ≠ JSArg.jsobj o) →
       isErr (getCancelAndContextArgs_ fn c k) = true) ∧
    (truthy c = true → truthy k = true → (∀ f, c ≠ JSArg.jsfunc f) →
       isErr (getCancelAndContextArgs_ fn c k) = true) ∧
    (∀ f, truthy k = true → (∀ o, k ≠ JSArg.jsobj o) →
       isErr (getCancelAndContextArgs_ fn (JSArg.jsfunc f) k) = true) := by
  intro fn c k
  refine ⟨?_, ?_, ?_, ?_, ?_, ?_, ?_⟩
  · intro f o
    rfl
  · intro hc
    unfold getCancelAndContextArgs_
    rw [if_neg (fun hh => by rw [hc] at hh ; exact Bool.false_ne_true hh.1),
        if_neg (fun hh => by rw [hc] at hh ; exact Bool.false_ne_true hh)]
  · intro hk f
    unfold getCancelAndContextArgs_
    rw [if_neg (fun hh => by rw [hk] at hh ; exact Bool.false_ne_true hh.2)]
    rfl
  · intro hk o
    unfold getCancelAndContextArgs_
    rw [if_neg (fun hh => by rw [hk] at hh ; exact Bool.false_ne_true hh.2)]
    rfl
  · intro hc hk hnf hno
    cases c with
    | undef => simp [truthy] at hc
    | jsnull => simp [truthy] at hc
    | jsfunc f => exact absurd rfl (hnf f)
    | jsobj o => exact absurd rfl (hno o)
    | jsbool b =>
        unfold getCancelAndContextArgs_
        rw [if_neg (fun hh => by rw [hk] at hh ; exact Bool.false_ne_true hh.2), if_pos hc]
        simp [isErr]
    | jsnum r =>
        unfold getCancelAndContextArgs_
        rw [if_neg (fun hh => by rw [hk] at hh ; exact Bool.false_ne_true hh.2), if_pos hc]
        simp [isErr]
    | jsstr s =>
        unfold getCancelAndContextArgs_
        rw [if_neg (fun hh => by rw [hk] at hh ; exact Bool.false_ne_true hh.2), if_pos hc]
        simp [isErr]
  · intro hc hk hnf
    cases c with
    | undef => simp [truthy] at hc
    | jsnull => simp [truthy] at hc
    | jsfunc f => exact absurd rfl (hnf f)
    | jsbool b =>
        unfold getCancelAndContextArgs_
        rw [if_pos ⟨hc, hk⟩]
        simp [isErr]
    | jsnum r =>
        unfold getCancelAndContextArgs_
        rw [if_pos ⟨hc, hk⟩]
        simp [isErr]
    | jsstr s =>
        unfold getCancelAndContextArgs_
        rw [if_pos ⟨hc, hk⟩]
        simp [isErr]
    | jsobj o =>
        unfold getCancelAndContextArgs_
        rw [if_pos ⟨hc, hk⟩]
        simp [isErr]
  · intro f hk hno
    cases k with
    | undef => simp [truthy] at hk
    | jsnull => simp [truthy] at hk
    | jsobj o => exact absurd rfl (hno o)
    | jsbool b =>
        unfold getCancelAndContextArgs_
        rw [if_pos ⟨rfl, hk⟩]
        simp [isErr]
    | jsnum r =>
        unfold getCancelAndContextArgs_
        rw [if_pos ⟨rfl, hk⟩]
        simp [isErr]
    | jsstr s =>
        unfold getCancelAndContextArgs_
        rw [if_pos ⟨rfl, hk⟩]
        simp [isErr]
    | jsfunc g =>
        unfold getCancelAndContextArgs_
        rw [if_pos ⟨rfl, hk⟩]
        simp [isErr]

/-- Witness for C3: a second orderBy call on an ordered query throws, and
`orderByChild` on the default query at a concrete valid path succeeds with
the orderBy flag set. -/
theorem C3_single_orderBy_call_witness :
    isErr (qOrdered.orderByKey).2 = true ∧
    (q0.orderByChild "b").2 = Except.ok (Query.mk q0.database q0.path
      (queryParamsOrderBy q0.queryParams_ (Index.pathIndex (parsePath "b"))) true) := by
  constructor
  · exact ((C3_single_orderBy_call qOrdered).1 rfl).2.1
  · exact ((C3_single_orderBy_call q0).2 rfl).1 "b" (by decide) (by decide) (by decide)
      (by decide) rfl

/-- Witness for C4: `startAt` on a query with a start bound throws, and on
the default query it succeeds. -/
theorem C4_range_already_set_witness :
    isErr (qStarted.startAt (JSVal.vnum 2) none).2 = true ∧
    (q0.startAt (JSVal.vnum 5) none).2 = Except.ok (Query.mk q0.database q0.path
      (queryParamsStartAt q0.queryParams_ (JSVal.vnum 5) none) q0.orderByCalled_) := by
  constructor
  · exact ((C4_range_already_set qStarted (JSVal.vnum 2) none).1 rfl).1
  · exact ((C4_range_already_set q0 (JSVal.vnum 5) none).2.2.1 rfl).1 rfl rfl

/-- Witness for C5: a string argument throws, an already-set limit throws,
and a positive integer on the default query records the anchored limit. -/
theorem C5_limit_arguments_witness :
    isErr (q0.limitToFirst (JSVal.vstr "x")).2 = true ∧
    isErr (qLimited.limitToFirst (JSVal.vnum 2)).2 = true ∧
    (q0.limitToFirst (JSVal.vnum 3)).2 = Except.ok (Query.mk q0.database q0.path
      (queryParamsLimitToFirst q0.queryParams_ 3) q0.orderByCalled_) := by
  refine ⟨?_, ?_, ?_⟩
  · exact ((C5_limit_arguments q0 (JSVal.vstr "x")).1 (fun r h => JSVal.noConfusion h)).1
  · exact ((C5_limit_arguments qLimited (JSVal.vnum 2)).2.1 rfl).1
  · exact ((C5_limit_arguments q0 (JSVal.vnum 3)).2.2 3 rfl (by decide) (by decide) rfl).1

/-- Witness for C6: `startAt` on parameters with both bounds and an
unanchored limit throws; an anchored limit with both bounds passes the
limit validation; `limitToFirst` succeeds with both bounds present. -/
theorem C6_unanchored_limit_combination_witness :
    isErr (qUnanchored.startAt (JSVal.vnum 2) none).2 = true ∧
    validateLimit_ paramsAnchoredBoth = Except.ok () ∧
    isErr (qBothBounds.limitToFirst (JSVal.vnum 3)).2 = false := by
  refine ⟨?_, ?_, ?_⟩
  · exact ((C6_unanchored_limit_combination qUnanchored (JSVal.vnum 2) none).1 rfl rfl rfl rfl).1
  · exact (C6_unanchored_limit_combination q0 JSVal.vnull none).2.2.1 paramsAnchoredBoth rfl
  · exact ((C6_unanchored_limit_combination qBothBounds JSVal.vnull none).2.2.2 3
      (by decide) (by decide) rfl rfl rfl).1

/-- Witness for C7: key-indexed parameters with a numeric start bound fail
the endpoint validation; `startAt` with a number on a key-ordered query
throws; `orderByKey` on a query with a numeric start bound throws. -/
theorem C7_eager_endpoint_validation_witness :
    isErr (validateQueryEndpoints_ paramsKeyBadStart) = true ∧
    isErr (qKeyIdx.startAt (JSVal.vnum 5) none).2 = true ∧
    isErr (qStarted.orderByKey).2 = true := by
  refine ⟨?_, ?_, ?_⟩
  · exact (C7_eager_endpoint_validation.1 paramsKeyBadStart).1 rfl rfl (Or.inr (by decide))
  · exact ((C7_eager_endpoint_validation.2 qKeyIdx (JSVal.vnum 5) none).1 rfl (by decide)).1
  · exact (C7_eager_endpoint_validation.2 qStarted JSVal.vnull none).2 rfl (by decide)

/-- Witness for C8: on the default query, `equalTo` equals the startAt then
endAt composition, and on a query with a start bound it throws. -/
theorem C8_equalTo_is_startAt_endAt_witness :
    (q0.equalTo (JSVal.vnum 5) none).2 =
      Except.bind (q0.startAt (JSVal.vnum 5) none).2 (fun q1 => (q1.endAt (JSVal.vnum 5) none).2) ∧
    isErr (qStarted.equalTo (JSVal.vnum 5) none).2 = true := by
  constructor
  · exact (C8_equalTo_is_startAt_endAt q0 (JSVal.vnum 5) none).1 rfl rfl
  · exact (C8_equalTo_is_startAt_endAt qStarted (JSVal.vnum 5) none).2 (Or.inl rfl)

/-- Witness for the amended C10: a function with an object is accepted as
cancel callback plus context, and a truthy non-object non-function third
argument raises a validation error. -/
theorem C10_amended_cancel_context_witness :
    getCancelAndContextArgs_ "Query.on" (JSArg.jsfunc 1) (JSArg.jsobj 2) =
      Except.ok (CancelAndContext.mk (some 1) (some 2)) ∧
    isErr (getCancelAndContextArgs_ "Query.on" (JSArg.jsstr "x") JSArg.undef) = true := by
  constructor
  · exact (C10_amended_cancel_context "Query.on" JSArg.undef JSArg.undef).1 1 2
  · exact (C10_amended_cancel_context "Query.on" (JSArg.jsstr "x") JSArg.undef).2.2.2.2.1
      (by decide) rfl (fun f h => JSArg.noConfusion h) (fun o h => JSArg.noConfusion h)

end FirebaseDB
